import Mathlib

/-!
Verification of the e2w template-to-document renderer (`src/e2w/e2w.py`)
against its natural-language specification.

The Python source is shallowly embedded below.  Strings are Lean `String`s,
Python floats are modelled as exact rationals `ℚ` (the float roundoff at the
magnitudes exercised here is far below every threshold compared against),
and the thread pool's nondeterministic completion order is made explicit as a
`List Nat` schedule parameter: the code appends each handler's output to the
shared document while holding `self._lock`, so the committed document is the
concatenation of per-node fragments in completion order.
-/

namespace E2W

/-! ## String helpers (Python semantics) -/

/-- Number of occurrences of a character in a string (Python `str.count`). -/
def countChar (s : String) (c : Char) : Nat := s.toList.count c

/-- Python `str.strip()`: drop leading and trailing whitespace. -/
def pyStrip (s : String) : String :=
  ⟨((s.toList.dropWhile Char.isWhitespace).reverse.dropWhile Char.isWhitespace).reverse⟩

/-- Python `str.startswith("#")` (single-character test). -/
def hashStart (s : String) : Bool := s.toList.head? == some '#'

/-- Python `str.upper()` (ASCII range suffices here). -/
def pyUpper (s : String) : String := ⟨s.toList.map Char.toUpper⟩

/-- Python `str.lower()` (ASCII range suffices here). -/
def pyLower (s : String) : String := ⟨s.toList.map Char.toLower⟩

/-- Split a character list at newline characters; mirrors Python
`str.split('\n')` (keeps a trailing empty component). -/
def splitOnNl : List Char → List (List Char)
  | [] => [[]]
  | c :: rest =>
    if c = '\n' then [] :: splitOnNl rest
    else
      match splitOnNl rest with
      | [] => [[c]]
      | line :: ls => (c :: line) :: ls

/-- Python `str.split('\n')`. -/
def pySplitNl (s : String) : List String := (splitOnNl s.toList).map (fun l => ⟨l⟩)

/-- Python `str.splitlines()` restricted to `'\n'` separators (the templates in
this repository use plain newlines): like `split('\n')` but with no trailing
empty line, and `[]` on the empty string. -/
def pySplitlines (s : String) : List String :=
  if s.toList.isEmpty then []
  else
    let parts := splitOnNl s.toList
    let parts := if s.toList.getLast? = some '\n' then parts.dropLast else parts
    parts.map (fun l => ⟨l⟩)

/-- Python `str.split(sep)` for a one-character separator (used for the
comma-separated `columns_name` attribute; `''.split(',') = ['']`). -/
def pySplitChar (s : String) (sep : Char) : List String :=
  (splitOnChar s.toList sep).map (fun l => ⟨l⟩)
where
  splitOnChar : List Char → Char → List (List Char)
    | [], _ => [[]]
    | c :: rest, sep =>
      if c = sep then [] :: splitOnChar rest sep
      else
        match splitOnChar rest sep with
        | [] => [[c]]
        | line :: ls => (c :: line) :: ls

/-- Substring test, Python `pat in s`. -/
def containsSub (s pat : String) : Bool :=
  s.toList.tails.any (fun t => pat.toList.isPrefixOf t)

/-- One pass of Python `str.replace(pat, rep)` (all non-overlapping
occurrences, left to right).  Fuel-based so the kernel can evaluate it; the
fuel `s.length + 1` always suffices because every step consumes at least one
character of `s`. -/
def replaceAllAux : Nat → List Char → List Char → List Char → List Char
  | 0, s, _, _ => s
  | _ + 1, [], _, _ => []
  | fuel + 1, c :: rest, pat, rep =>
    if pat.isPrefixOf (c :: rest) then
      rep ++ replaceAllAux fuel ((c :: rest).drop pat.length) pat rep
    else
      c :: replaceAllAux fuel rest pat rep

/-- Python `str.replace` on strings (the replaced pattern is never empty at
the call sites: it is always `"<" + key + "/>"`). -/
def pyReplace (s pat rep : String) : String :=
  if pat.toList.isEmpty then s
  else ⟨replaceAllAux (s.toList.length + 1) s.toList pat.toList rep.toList⟩

/-- Digits-to-number accumulator. -/
def natOfDigits (l : List Char) : Nat :=
  l.foldl (fun n c => 10 * n + (c.toNat - '0'.toNat)) 0

/-- Python `int(str)`: strips whitespace, accepts an optional sign followed by
at least one decimal digit, raises `ValueError` (here: `none`) otherwise. -/
def pyParseInt (s : String) : Option Int :=
  let t := (pyStrip s).toList
  let signDigits : Int × List Char :=
    match t with
    | '-' :: rest => (-1, rest)
    | '+' :: rest => (1, rest)
    | l => (1, l)
  if !signDigits.2.isEmpty && signDigits.2.all Char.isDigit then
    some (signDigits.1 * (natOfDigits signDigits.2 : Int))
  else none

/-! ## Template Normalizer — `_format_template_to_html` (lines 112–169) -/

/-- `self._contains_html_tags(line)`: `'<' in line and '>' in line`. -/
def containsHtmlTags (line : String) : Bool :=
  line.toList.contains '<' && line.toList.contains '>'

/-- `self._is_complete_html_tag(line)`: equal `<` / `>` counts, at least one. -/
def isCompleteHtmlTag (line : String) : Bool :=
  let openTags := countChar line '<'
  let closeTags := countChar line '>'
  openTags == closeTags && openTags > 0

/-- Loop state of `_format_template_to_html`: emitted lines, the
`in_html_block` flag and the `current_html_block` accumulator. -/
structure NormState where
  htmlLines : List String
  inHtmlBlock : Bool
  currentBlock : List String

/-- One iteration of the `for line in lines` loop of
`_format_template_to_html`. -/
def normStep (st : NormState) (line : String) : NormState :=
  let stripped := pyStrip line
  if stripped = "" then
    -- empty line: soft break inside a block, empty paragraph otherwise
    if st.inHtmlBlock then { st with currentBlock := st.currentBlock ++ ["<br/>"] }
    else { st with htmlLines := st.htmlLines ++ ["<p></p>"] }
  else if hashStart stripped then
    -- comment line: dropped
    st
  else if containsHtmlTags stripped then
    -- close a pending text block first
    let st :=
      if !st.inHtmlBlock && !st.currentBlock.isEmpty then
        { st with
            htmlLines := st.htmlLines ++ ["<p>" ++ String.join st.currentBlock ++ "</p>"],
            currentBlock := [] }
      else st
    if isCompleteHtmlTag stripped then
      { st with htmlLines := st.htmlLines ++ [stripped] }
    else
      { st with inHtmlBlock := true, currentBlock := st.currentBlock ++ [stripped] }
  else
    -- text line: close an open html block, then accumulate prose
    let st :=
      if st.inHtmlBlock then
        { st with
            htmlLines := st.htmlLines ++ [String.join st.currentBlock],
            currentBlock := [], inHtmlBlock := false }
      else st
    { st with currentBlock := st.currentBlock ++ [stripped] }

/-- The "handle any remaining content" epilogue of
`_format_template_to_html`. -/
def normFinish (st : NormState) : List String :=
  if !st.currentBlock.isEmpty then
    if st.inHtmlBlock then st.htmlLines ++ [String.join st.currentBlock]
    else st.htmlLines ++ ["<p>" ++ String.join st.currentBlock ++ "</p>"]
  else st.htmlLines

/-- `_format_template_to_html` at the level of line lists. -/
def formatLines (lines : List String) : List String :=
  normFinish (lines.foldl normStep ⟨[], false, []⟩)

/-- `self._format_template_to_html(content)`. -/
def formatTemplateToHtml (content : String) : String :=
  String.intercalate "\n" (formatLines (pySplitlines content))

/-! ## Variable Binder — `_replace_variables` (lines 547–566) -/

/-- A context value: scalar, ordered sequence, or key→value mapping
(sequence items and mapping entries are modelled by their `str()` forms). -/
inductive CtxVal where
  | str (v : String)
  | seq (vs : List String)
  | dict (kvs : List (String × String))

/-- String rendering used by `_replace_variables`: sequences join with
`", "`, dicts render one `key: value` line per entry, scalars by `str`. -/
def renderCtxVal : CtxVal → String
  | .str v => v
  | .seq vs => String.intercalate ", " vs
  | .dict kvs => String.intercalate "\n" (kvs.map (fun kv => kv.1 ++ ": " ++ kv.2))

/-- `self._replace_variables(text)`: for each context key, replaces every
occurrence of `<key/>` (guarded by the `if placeholder in text` check).  The
surrounding `try/except` cannot fire in this pure model. -/
def replaceVariables (text : String) (ctx : List (String × CtxVal)) : String :=
  ctx.foldl
    (fun t kv =>
      let placeholder := "<" ++ kv.1 ++ "/>"
      if containsSub t placeholder then pyReplace t placeholder (renderCtxVal kv.2) else t)
    text

/-! ## Template cleaning and construction — `_clean_template`, `__init__` -/

/-- `self._clean_template`: drop lines whose stripped form starts with `#`
(file content is passed in directly; the file read is external I/O). -/
def cleanTemplate (content : String) : String :=
  String.intercalate "\n"
    ((pySplitNl content).filter (fun line => !hashStart (pyStrip line)))

/-- The `__init__` logic that produces `self.template_content` (lines 43–55):
the `template_file` argument is modelled as `some (fileText, ok)` carrying the
file's text (existence checks and file reads are external I/O and the claims
exercise only the in-memory paths).  An empty context models Python's falsy
`context=None`/`{}`; an empty `template_content` string is likewise falsy. -/
def initContent (templateFile : Option String) (templateContent : Option String)
    (ctx : List (String × CtxVal)) : Except String String :=
  match templateFile with
  | some fileText =>
    if ctx.isEmpty then
      .error "If temp_file is provided, context must not be None."
    else
      .ok (formatTemplateToHtml (replaceVariables (cleanTemplate fileText) ctx))
  | none =>
    match templateContent with
    | some c =>
      if c = "" then .error "Either template_file or template_content must be provided."
      else .ok (formatTemplateToHtml c)
    | none => .error "Either template_file or template_content must be provided."

/-! ## Template Validator — `validate_template` (lines 568–610) -/

/-- A `\w` character of the `<(\w+)/>` placeholder regex (ASCII range; the
templates use ASCII names). -/
def isWordChar (c : Char) : Bool := c.isAlphanum || c == '_'

/-- `re.findall(r'<(\w+)/>', content)`: non-overlapping left-to-right scan.
Fuel-based (`length + 1` always suffices: every step consumes ≥ 1 char). -/
def scanPlaceholdersAux : Nat → List Char → List String
  | 0, _ => []
  | _ + 1, [] => []
  | fuel + 1, c :: rest =>
    if c = '<' then
      let name := rest.takeWhile isWordChar
      if !name.isEmpty && (rest.drop name.length).take 2 = ['/', '>'] then
        String.mk name :: scanPlaceholdersAux fuel (rest.drop (name.length + 2))
      else scanPlaceholdersAux fuel rest
    else scanPlaceholdersAux fuel rest

/-- All placeholder names occurring in a string, in scan order. -/
def scanPlaceholders (s : String) : List String :=
  scanPlaceholdersAux (s.toList.length + 1) s.toList

/-- The dictionary returned by `validate_template`. -/
structure ValidationResult where
  isValid : Bool
  errors : List String
  warnings : List String
  tagCount : Nat
  variableCount : Nat

/-- `self.validate_template()`.  `tagCount` (`len(soup.find_all())`) comes from
the external markup parser and is passed in; Python's `set(variables)` is
modelled by `dedup` (the claims only use membership, which is
order-independent).  The `html.parser` backend never raises, so the two
`except` arms are dead and `errors` stays empty with `is_valid = True`. -/
def validateTemplate (content : String) (ctxKeys : List String) (tagCount : Nat) :
    ValidationResult :=
  let vars := scanPlaceholders content
  let distinct := vars.dedup
  let missingVars := distinct.filter (fun v => !ctxKeys.contains v)
  let warnings := missingVars.map (fun v => "Variable '" ++ v ++ "' not found in context")
  let warnings :=
    if !missingVars.isEmpty then
      warnings ++ ["Missing variables: " ++ String.intercalate ", " missingVars]
    else warnings
  { isValid := true
    errors := []
    warnings := warnings
    tagCount := tagCount
    variableCount := distinct.length }

/-! ## Markup nodes (the BeautifulSoup tree consumed by the handlers) -/

mutual
/-- A parsed markup node: a `NavigableString` leaf or a `Tag` with name,
attribute map and ordered children.  (Mutual with `NodeList` so that all
tree-walking functions are structurally recursive and computable.) -/
inductive Node where
  | text (s : String)
  | elem (name : String) (attrs : List (String × String)) (children : NodeList)

/-- Ordered children of a tag. -/
inductive NodeList where
  | nil : NodeList
  | cons : Node → NodeList → NodeList
end

/-- Build a `NodeList` from a `List Node`. -/
def NodeList.ofList : List Node → NodeList
  | [] => .nil
  | n :: rest => .cons n (NodeList.ofList rest)

/-- `tag.name` (text leaves have no name; they are never dispatched). -/
def nodeName : Node → String
  | .text _ => ""
  | .elem n _ _ => n

/-- `tag.get(key)` / `tag.attrs` lookup. -/
def lookupAttr (attrs : List (String × String)) (k : String) : Option String :=
  (attrs.find? (fun kv => kv.1 == k)).map (fun kv => kv.2)

mutual
/-- `tag.get_text()`: concatenation of all descendant string leaves, in
document order. -/
def Node.getText : Node → String
  | .text s => s
  | .elem _ _ cs => NodeList.getTextList cs

/-- `get_text` over a child list. -/
def NodeList.getTextList : NodeList → String
  | .nil => ""
  | .cons c rest => Node.getText c ++ NodeList.getTextList rest
end

/-! ## Fragments: the document mutations a handler performs -/

/-- One styled run (`paragraph.add_run` plus font flags). -/
structure Run where
  text : String
  bold : Bool
  italic : Bool
  underline : Bool
deriving DecidableEq

/-- `WD_ALIGN_PARAGRAPH` values used by the code. -/
inductive Align where
  | left
  | right
  | center
  | justify
deriving DecidableEq

/-- A rendered table: style name, header-row cell texts (set in bold by the
code) and the data-row cell texts. -/
structure TableFrag where
  style : Option String
  headerNames : List String
  dataRows : List (List String)
deriving DecidableEq

/-- One self-contained document mutation appended by a handler.  `para`'s
alignment is `none` when the code leaves `paragraph.alignment` untouched. -/
inductive Frag where
  | para (align : Option Align) (runs : List Run)
  | errorPara (msg : String)
  | heading (level : Nat) (text : String)
  | table (t : TableFrag)
  | picture (src : String) (w h : ℚ)
  | listItem (numbered : Bool) (runs : List Run)
  | headerFooter (isHeader : Bool) (text : String)
  | sectionBreak
  | pageBreak
deriving DecidableEq

/-- Result of running one handler body: the fragments it appended to the
document before returning or raising, and the exception it raised (if any).
Python mutations performed before an exception persist in the document. -/
abbrev HandlerResult := List Frag × Option String

/-- `Frag.table`? — used to count table elements in the output. -/
def isTableFrag : Frag → Bool
  | .table _ => true
  | _ => false

/-! ## Inline Formatting Resolver — `_handle_inline_formatting` (529–545) -/

mutual
/-- The recursive `recurse(node, bold, italic, underline)` walk: a text leaf
with non-whitespace content emits one run carrying the inherited flags (run
text is the raw string; only the emptiness check strips); a tag switches a
flag on when named `b`/`i`/`u` and recurses into its children. -/
def inlineRunsGo : Bool → Bool → Bool → Node → List Run
  | b, i, u, .text s => if pyStrip s ≠ "" then [⟨s, b, i, u⟩] else []
  | b, i, u, .elem name _ cs =>
    inlineRunsList (b || name == "b") (i || name == "i") (u || name == "u") cs

/-- The `for child in node.children` part of the walk. -/
def inlineRunsList : Bool → Bool → Bool → NodeList → List Run
  | _, _, _, .nil => []
  | b, i, u, .cons c rest => inlineRunsGo b i u c ++ inlineRunsList b i u rest
end

/-- `self._handle_inline_formatting(element, para)` as the list of runs added
to `para`, in document order (`recurse(element)` starts with all flags off). -/
def inlineRuns (n : Node) : List Run := inlineRunsGo false false false n

/-! ## Simple paragraph/heading handlers -/

/-- The `align_paragraph` dictionary lookup with an explicit default. -/
def alignGet (s : String) (dflt : Align) : Align :=
  if s == "left" then .left
  else if s == "right" then .right
  else if s == "center" then .center
  else if s == "justify" then .justify
  else dflt

/-- `self._add_paragraph(tag)` (lines 517–527): always adds a paragraph; a
`Tag` gets its alignment from an `align` attribute if present (default LEFT on
an unknown value) plus inline-formatted runs; a plain string gets its stripped
text as one run. -/
def addParagraph : Node → Frag
  | .elem n attrs cs =>
    let align :=
      match lookupAttr attrs "align" with
      | some v => some (alignGet (pyLower v) .left)
      | none => none
    .para align (inlineRuns (.elem n attrs cs))
  | .text s =>
    .para none (if pyStrip s ≠ "" then [⟨pyStrip s, false, false, false⟩] else [])

/-- `self._handle_title(tag)`: one centered paragraph, bold upper-cased
stripped text (fixed 16 pt size not modelled). -/
def handleTitle (tag : Node) : Frag :=
  .para (some .center) [⟨pyUpper (pyStrip tag.getText), true, false, false⟩]

/-- The level computation of `_handle_heading`:
`int(tag.name[1:-1]) if tag.name[1:-1].isdigit() else 1`.  Note the slice
`[1:-1]` drops both the leading `h` and the final character. -/
def headingLevel (name : String) : Nat :=
  let mid := (name.toList.drop 1).dropLast
  if !mid.isEmpty && mid.all Char.isDigit then natOfDigits mid else 1

/-- `self._handle_heading(tag)`: one left-aligned heading paragraph with the
stripped text at the computed level. -/
def handleHeading (tag : Node) : Frag :=
  .heading (headingLevel (nodeName tag)) (pyStrip tag.getText)

/-! ## `blank_table` handler (lines 370–392) -/

/-- The `Column N` auto-naming loop: extend `names` up to `tableColumns`
entries. -/
def padColumns (names : List String) (tableColumns : Nat) : List String :=
  if names.length < tableColumns then
    names ++ (List.range (tableColumns - names.length)).map
      (fun k => "Column " ++ toString (names.length + k + 1))
  else names

/-- `self._handle_blank_table(tag)`.  `int(...)` raises on non-numeric
attributes (before any document mutation).  `add_table(rows, cols)` with a
non-positive count yields a table whose `rows[0]` / cell accesses raise
`IndexError`; assigning a header cell index `≥ columns` likewise raises after
the (empty-celled) table was already appended — both modelled as the partial
fragment plus the error.  On success the table has `rows` pre-created rows
(the first being the header) plus `rows - 1` rows added by the loop, all data
cells `""`. -/
def handleBlankTable (tableStyle : Option String) (tag : Node) : HandlerResult :=
  match tag with
  | .text _ => ([], some "AttributeError")
  | .elem _ attrs _ =>
    let rowsA := match lookupAttr attrs "rows" with
      | none => some (1 : Int)
      | some s => pyParseInt s
    match rowsA with
    | none => ([], some "ValueError: invalid literal for int()")
    | some rows =>
      let colsA := match lookupAttr attrs "columns" with
        | none => some (1 : Int)
        | some s => pyParseInt s
      match colsA with
      | none => ([], some "ValueError: invalid literal for int()")
      | some cols =>
        -- _table_columns = max(_columns, len(_columns_name)); once the
        -- header assignment is known in range (names ≤ columns) it equals
        -- the column count, which is used below.
        let columnsName := pySplitChar ((lookupAttr attrs "columns_name").getD "") ','
        if rows < 1 || cols < 1 then
          ([.table ⟨tableStyle, [], []⟩], some "IndexError")
        else
          let r := rows.toNat
          let c := cols.toNat
          if columnsName.length > c then
            -- header_cells[i] for i ≥ columns is out of range
            ([.table ⟨tableStyle, [], []⟩], some "IndexError")
          else
            let headers := (padColumns columnsName c).map pyStrip
            ([.table ⟨tableStyle, headers, List.replicate ((r - 1) + (r - 1)) (List.replicate c "")⟩],
             none)

/-! ## Geometry Resolver — `_get_image_size` (323–353), `_handle_image` -/

/-- `self._get_image_size(image_path, target_height)` given the intrinsic
pixel size: default width is 60% of page width with height derived by the
aspect ratio (or width derived from a requested height), then the two
sequential clamps against 90% page width / 80% page height, each recomputing
the other dimension through the aspect ratio. -/
def getImageSize (pageW pageH imgW imgH targetHeight : ℚ) : ℚ × ℚ :=
  let aspect := imgW / imgH
  let tw0 := if targetHeight == 0 then pageW * (6/10) else targetHeight * aspect
  let th0 := if targetHeight == 0 then (pageW * (6/10)) / aspect else targetHeight
  let maxW := pageW * (9/10)
  let maxH := pageH * (8/10)
  let tw1 := if tw0 > maxW then maxW else tw0
  let th1 := if tw0 > maxW then maxW / aspect else th0
  let tw2 := if th1 > maxH then maxH * aspect else tw1
  let th2 := if th1 > maxH then maxH else th1
  (tw2, th2)

/-- The size-override logic of `_handle_image` (lines 299–308): an explicit
`width`/`height` attribute is taken as-is (each independently, the other kept
from the geometry resolver); otherwise, when either resolved dimension exceeds
`image_max_size`, each dimension is clamped **independently** by `min`. -/
def resolveImageSize (imageMaxW imageMaxH : ℚ) (tagW tagH : Option ℚ) (w0 h0 : ℚ) : ℚ × ℚ :=
  if tagW.isSome || tagH.isSome then
    (tagW.getD w0, tagH.getD h0)
  else if w0 > imageMaxW || h0 > imageMaxH then
    (min w0 imageMaxW, min h0 imageMaxH)
  else (w0, h0)

/-! ## Session configuration and external collaborators -/

/-- A loaded tabular result (`pandas.DataFrame` rows of already-stringified
cells; the default integer index carries no data and is not represented, so
the `reset_index(drop=True)` step is the identity here). -/
structure Df where
  cols : List String
  rows : List (List String)
deriving DecidableEq

/-- `df.empty`: no rows or no columns (`pd.DataFrame()` is empty). -/
def Df.isEmpty (d : Df) : Bool := d.rows.isEmpty || d.cols.isEmpty

/-- Outcome of the `requests.post` call on the `dataframe` api path:
`.error` models a raised request exception; otherwise the status code, the
truthiness of the decoded JSON body, and the `data` field as a table
(`DataFrame(data.get('data', {}))` of a missing field is the empty frame). -/
structure ApiResp where
  status : Nat
  bodyTruthy : Bool
  dataDf : Df

/-- Per-session configuration plus the external collaborators (file system,
HTTP, image files) and the thread-pool completion orders.  `pageW`/`pageH`
are `self.page_dimensions` after the landscape swap of `_document_setup`;
the defaults model `PageLayout(LANDSCAPE, A4)` and
`image_max_size = (5.3, 3.5)` inches.  `chunkOrder` is the order in which
`as_completed` chunks acquire the lock in `_process_dataframe_chunks`. -/
structure Session where
  headingLevels : Nat
  chunkSize : Nat
  tableStyle : Option String
  pageW : ℚ
  pageH : ℚ
  imageMaxW : ℚ
  imageMaxH : ℚ
  fs : String → Option (Except String Df)
  api : String → Except String ApiResp
  images : String → Option (ℚ × ℚ)
  chunkOrder : List Nat

/-! ## Bulk Table Renderer — `_process_dataframe_chunks` (465–491) -/

/-- `[df.iloc[i:i+chunk_size] for i in range(0, total_rows, chunk_size)]`:
fixed-size contiguous partition by original row index.  Fuel-based for kernel
evaluation (each step consumes at least one row when `size ≥ 1`; a zero step
would raise in Python and is modelled as no chunks). -/
def chunksOfAux : Nat → Nat → List (List String) → List (List (List String))
  | 0, _, _ => []
  | _ + 1, _, [] => []
  | fuel + 1, size, l =>
    if size = 0 then [] else l.take size :: chunksOfAux fuel size (l.drop size)

/-- The chunk partition of a row list. -/
def chunksOf (size : Nat) (l : List (List String)) : List (List (List String)) :=
  chunksOfAux (l.length + 1) size l

/-- `self._process_dataframe_chunks(df, table, total_rows)` as the sequence of
data rows added to the table: every chunk is submitted to the pool, each
`_process_chunk` appends its whole chunk while holding `self._lock` (so a
chunk is contiguous in the output), and chunks are committed in completion
order `order`, not in chunk-index order. -/
def processDataframeChunks (rows : List (List String)) (size : Nat)
    (order : List Nat) : List (List String) :=
  let chunks := chunksOf size rows
  (order.map (fun i => chunks.getD i [])).flatten

/-! ## `dataframe` handler — `_handle_dataframe` (394–463) -/

/-- `self._handle_dataframe(tag)`.  The CSV path reads the file in chunks and
concatback together (`pd.concat` of the `read_csv` chunks is the whole
table, so `fs` returns it directly); a nonexistent path leaves `df` empty; a
raised read error produces an inline error paragraph and returns.  The api
path posts and uses the `data` field of a truthy 200 response.  An empty
result produces the `"... No data available."` error paragraph.  Otherwise a
table with a bold header row is appended and the data rows are committed
directly when `total_rows ≤ chunk_size`, else chunk-wise in completion
order. -/
def handleDataframe (s : Session) (tag : Node) : HandlerResult :=
  match tag with
  | .text _ => ([], some "AttributeError")
  | .elem _ attrs _ =>
    let dfE : Except (List Frag) Df :=
      match lookupAttr attrs "src" with
      | some p =>
        match s.fs p with
        | none => .ok ⟨[], []⟩                    -- os.path.exists false: df stays empty
        | some (.ok d) => .ok d
        | some (.error e) => .error [.errorPara ("Error reading CSV file: " ++ e)]
      | none =>
        match lookupAttr attrs "api" with
        | some url =>
          match s.api url with
          | .error e => .error [.errorPara ("API Error: " ++ e)]
          | .ok r =>
            if r.status == 200 && r.bodyTruthy then .ok r.dataDf
            else .ok ⟨[], []⟩
        | none => .ok ⟨[], []⟩
    match dfE with
    | .error frags => (frags, none)              -- handler returned after the error paragraph
    | .ok df =>
      if df.isEmpty then
        ([.errorPara (tag.getText ++ " No data available.")], none)
      else
        let style := (lookupAttr attrs "style").getD ((s.tableStyle).getD "")
        match (match lookupAttr attrs "max_rows" with
               | none => some (0 : Int)
               | some v => pyParseInt v) with
        | none => ([], some "ValueError: invalid literal for int()")
        | some maxRows =>
          let df :=
            if maxRows > 0 && (df.rows.length : Int) > maxRows then
              { df with rows := df.rows.take maxRows.toNat }
            else df
          let committedRows :=
            if df.rows.length > s.chunkSize then
              processDataframeChunks df.rows s.chunkSize s.chunkOrder
            else df.rows
          ([.table ⟨some style, df.cols, committedRows⟩], none)

/-! ## Remaining handlers (header/footer, image, base64, breaks, lists) -/

/-- `self._handle_header_footer(section, tag)`: a one-row table in the header
(3 columns) or footer (1 column); first cell text, optional right-aligned
image in the last cell.  Modelled at fragment granularity. -/
def handleHeaderFooter (tag : Node) : Frag :=
  .headerFooter (nodeName tag == "header") (pyStrip tag.getText)

/-- `self._handle_image(tag, ...)` for the body path (`height = 0`,
default alignment `center`): missing `src` yields the attribute error
paragraph; a nonexistent file yields the `[Missing image: ...]` error-styled
run; otherwise the size comes from `_get_image_size` followed by the
override/independent-clamp logic of `resolveImageSize`.  Width/height
attributes are modelled as already-parsed rationals in `Session.images`-space
(`float()` of the attribute; a malformed number would raise into the generic
`[Error loading image ...]` arm, which no claim exercises). -/
def handleImage (s : Session) (tagW tagH : Option ℚ) (tag : Node) : HandlerResult :=
  match tag with
  | .text _ => ([], some "AttributeError")
  | .elem _ attrs _ =>
    match lookupAttr attrs "src" with
    | none => ([.errorPara "Image tag must have a 'src' attribute."], none)
    | some srcRaw =>
      let align := alignGet (pyLower ((lookupAttr attrs "align").getD "center")) .center
      let src := pyStrip srcRaw
      match s.images src with
      | none =>
        ([.para (some align) [⟨"[Missing image: " ++ src ++ "]", false, true, false⟩]], none)
      | some (imgW, imgH) =>
        let wh0 := getImageSize s.pageW s.pageH imgW imgH 0
        let wh := resolveImageSize s.imageMaxW s.imageMaxH tagW tagH wh0.1 wh0.2
        ([.picture src wh.1 wh.2], none)

/-- `self._handle_base64_image(tag)`: body must start with `data:image/`
(else an uncaught `ValueError`); the decode itself and the fixed 4-inch
picture are modelled at fragment granularity with the decode assumed to
succeed (a failure would be caught into an error paragraph). -/
def handleBase64Image (tag : Node) : HandlerResult :=
  let imageData := pyStrip tag.getText
  if !(("data:image/").toList.isPrefixOf imageData.toList) then
    ([], some "ValueError: Invalid base64 image data.")
  else
    ([.picture imageData 4 3], none)

/-- `tag.name == "li"`? -/
def isLi : Node → Bool
  | .elem "li" _ _ => true
  | _ => false

/-- `tag.name in ("ul", "ol")`? -/
def isUlOl : Node → Bool
  | .elem n _ _ => n == "ul" || n == "ol"
  | _ => false

mutual
/-- `self._handle_list(tag)`: one list paragraph per direct `li` child
(bullet for `ul`, numbered for `ol`) with inline formatting, then any
`ul`/`ol` nested directly inside that `li` recurses after the item. -/
def handleList : Node → List Frag
  | .text _ => []
  | .elem name _ cs => handleListItems (name == "ol") cs

/-- The `for li in tag.find_all('li', recursive=False)` loop. -/
def handleListItems : Bool → NodeList → List Frag
  | _, .nil => []
  | numbered, .cons c rest =>
    (match c with
     | .elem nm a gcs =>
       if nm == "li" then
         Frag.listItem numbered (inlineRuns (.elem nm a gcs)) :: handleNestedLists gcs
       else []
     | .text _ => [])
    ++ handleListItems numbered rest

/-- The `for nested in li.find_all(['ul', 'ol'], recursive=False)` loop. -/
def handleNestedLists : NodeList → List Frag
  | .nil => []
  | .cons c rest => (if isUlOl c then handleList c else []) ++ handleNestedLists rest
end

/-! ## Handler Registry and Ordered(?) Concurrent Dispatcher (72–110, 183–200) -/

/-- Is `name` one of the `h1..hN` keys of `_tag_handlers` (N =
`heading_levels`)? -/
def isHeadingTag (headingLevels : Nat) (name : String) : Bool :=
  (List.range headingLevels).any (fun i => name == "h" ++ toString (i + 1))

/-- `self._tag_handlers().get(tag.name)` followed by the handler call: the
fragments the handler appends to the document plus the exception it raises,
if any.  Unknown tags fall back to `_add_paragraph`.  `width`/`height` image
attributes are parsed with `pyParseInt` cast to `ℚ` (the templates use plain
numerals; `float()` accepts them identically). -/
def dispatchTag (s : Session) (tag : Node) : HandlerResult :=
  let name := nodeName tag
  if name == "header" || name == "footer" then ([handleHeaderFooter tag], none)
  else if name == "title" then ([handleTitle tag], none)
  else if isHeadingTag s.headingLevels name then ([handleHeading tag], none)
  else if name == "image" then
    let tagW := match tag with
      | .elem _ attrs _ => (lookupAttr attrs "width").bind (fun v => (pyParseInt v).map (fun n => (n : ℚ)))
      | .text _ => none
    let tagH := match tag with
      | .elem _ attrs _ => (lookupAttr attrs "height").bind (fun v => (pyParseInt v).map (fun n => (n : ℚ)))
      | .text _ => none
    handleImage s tagW tagH tag
  else if name == "dataframe" then handleDataframe s tag
  else if name == "base64-image" then handleBase64Image tag
  else if name == "session_break" then ([.sectionBreak], none)
  else if name == "page_break" then ([.pageBreak], none)
  else if name == "p" then ([addParagraph tag], none)
  else if name == "blank_table" then handleBlankTable s.tableStyle tag
  else if name == "ul" || name == "ol" then (handleList tag, none)
  else ([addParagraph tag], none)

/-- `self._process_tag(tag)` (lines 99–110): the handler runs while holding
`self._lock`, so its document mutations are committed as one contiguous
block; any exception is caught and printed, committing whatever fragments
were appended before the failure and adding nothing else (no error marker). -/
def processTag (s : Session) (tag : Node) : List Frag :=
  (dispatchTag s tag).1

/-- `self.render()` (lines 72–97): all top-level `Tag` children are submitted
to the `ThreadPoolExecutor` in document order, but each `_process_tag` appends
to the shared document whenever its thread runs, so the committed document is
the concatenation of per-tag fragment blocks in the pool's completion order
`order` (a permutation of the tag indices), not in template order. -/
def renderSchedule (s : Session) (tags : List Node) (order : List Nat) : List Frag :=
  (order.map (fun i =>
    match tags.get? i with
    | some t => processTag s t
    | none => [])).flatten

/-- Default session: `PageLayout(LANDSCAPE, A4)` gives
`page_dimensions = (11.69, 8.27)`, `image_max_size = (5.3, 3.5)` inches,
`heading_levels = 6`, `chunk_size = 1000`; no files, images or API
reachable. -/
def defaultSession : Session :=
  { headingLevels := 6
    chunkSize := 1000
    tableStyle := some "Table Grid"
    pageW := 1169/100
    pageH := 827/100
    imageMaxW := 53/10
    imageMaxH := 7/2
    fs := fun _ => none
    api := fun _ => .error "ConnectionError"
    images := fun _ => none
    chunkOrder := [] }

/-! ## Derived observations used in the theorems -/

/-- Modelled from the spec: the Markup Parser (§4.3) is the external standard
markup parser wrapped by the code (BeautifulSoup over `html.parser`), which is
not part of this repository; per §4.3 the parser "must tolerate self-closing
tags", so a `<name/>` placeholder that survives binding parses to an element
of that name with no children (the literal characters are consumed by the
parser). -/
def parseSelfClosing (name : String) : Node := .elem name [] .nil

/-- Does a fragment carry the given substring in any of its visible texts? -/
def fragContainsText (t : String) : Frag → Bool
  | .para _ runs => runs.any (fun r => containsSub r.text t)
  | .errorPara m => containsSub m t
  | .heading _ s => containsSub s t
  | .table tb =>
    tb.headerNames.any (fun s => containsSub s t)
      || tb.dataRows.any (fun row => row.any (fun s => containsSub s t))
  | .picture src _ _ => containsSub src t
  | .listItem _ runs => runs.any (fun r => containsSub r.text t)
  | .headerFooter _ s => containsSub s t
  | .sectionBreak => false
  | .pageBreak => false

/-- Does any committed fragment show the given substring? -/
def fragsContainText (frags : List Frag) (t : String) : Bool :=
  frags.any (fragContainsText t)

/-- A line that enters (or extends) a multi-line markup block in
`_format_template_to_html`: non-blank, not a comment, contains both brackets,
with unequal counts. -/
def unbalancedMarkupLine (l : String) : Bool :=
  let s := pyStrip l
  !(s == "") && !hashStart s && containsHtmlTags s && !isCompleteHtmlTag s

/-! ## Helper lemmas -/

/-- Splitting a flattened map at a member of the index list. -/
theorem exists_flatten_split {α β : Type} (g : β → List α) :
    ∀ (order : List β) (j : β), j ∈ order →
      ∃ p q, (order.map g).flatten = p ++ g j ++ q := by
  intro order
  induction order with
  | nil => intro j hj; cases hj
  | cons b rest ih =>
    intro j hj
    rcases List.mem_cons.mp hj with hb | hr
    · exact ⟨[], (rest.map g).flatten, by simp [hb]⟩
    · obtain ⟨p, q, hpq⟩ := ih j hr
      exact ⟨g b ++ p, q, by simp [hpq]⟩

/-- Inside an open block, an unbalanced markup line is appended (stripped) to
the block and nothing else changes. -/
theorem normStep_block_unbalanced (out cur : List String) (l : String)
    (h : unbalancedMarkupLine l = true) :
    normStep ⟨out, true, cur⟩ l = ⟨out, true, cur ++ [pyStrip l]⟩ := by
  simp only [unbalancedMarkupLine, Bool.and_eq_true, Bool.not_eq_true',
    beq_eq_false_iff_ne, ne_eq] at h
  obtain ⟨⟨⟨h1, h2⟩, h3⟩, h4⟩ := h
  simp [normStep, h1, h2, h3, h4]

/-- Outside a block with no pending prose, an unbalanced markup line opens a
block holding exactly its stripped form. -/
theorem normStep_start_unbalanced (out : List String) (l : String)
    (h : unbalancedMarkupLine l = true) :
    normStep ⟨out, false, []⟩ l = ⟨out, true, [pyStrip l]⟩ := by
  simp only [unbalancedMarkupLine, Bool.and_eq_true, Bool.not_eq_true',
    beq_eq_false_iff_ne, ne_eq] at h
  obtain ⟨⟨⟨h1, h2⟩, h3⟩, h4⟩ := h
  simp [normStep, h1, h2, h3, h4]

/-- A run of unbalanced markup lines keeps extending the open block, which the
epilogue then flushes as a single unit. -/
theorem norm_block_absorbs (ls : List String) :
    ∀ out cur, cur ≠ [] → (∀ l ∈ ls, unbalancedMarkupLine l = true) →
      normFinish (ls.foldl normStep ⟨out, true, cur⟩) =
        out ++ [String.join (cur ++ ls.map pyStrip)] := by
  induction ls with
  | nil =>
    intro out cur hcur _
    simp [normFinish, List.isEmpty_iff, hcur]
  | cons l ls ih =>
    intro out cur hcur hall
    have hstep := normStep_block_unbalanced out cur l (hall l (List.mem_cons_self l ls))
    calc normFinish ((l :: ls).foldl normStep ⟨out, true, cur⟩)
        = normFinish (ls.foldl normStep ⟨out, true, cur ++ [pyStrip l]⟩) := by
          rw [List.foldl_cons, hstep]
      _ = out ++ [String.join ((cur ++ [pyStrip l]) ++ ls.map pyStrip)] := by
          exact ih out (cur ++ [pyStrip l]) (by simp) (fun x hx => hall x (List.mem_cons_of_mem _ hx))
      _ = out ++ [String.join (cur ++ (l :: ls).map pyStrip)] := by
          simp

/-- The binder leaves any text containing no bound placeholder untouched. -/
theorem replaceVariables_of_no_placeholder (ctx : List (String × CtxVal)) :
    ∀ (text : String),
      (∀ kv ∈ ctx, containsSub text ("<" ++ kv.1 ++ "/>") = false) →
      replaceVariables text ctx = text := by
  induction ctx with
  | nil => intro text _; rfl
  | cons kv rest ih =>
    intro text h
    have hkv := h kv (List.mem_cons_self kv rest)
    have : replaceVariables text (kv :: rest) = replaceVariables text rest := by
      simp [replaceVariables, hkv]
    rw [this]
    exact ih text (fun x hx => h x (List.mem_cons_of_mem _ hx))

/-- `padColumns` under an in-range name list is the declared names plus the
`Column N` auto-names. -/
theorem padColumns_eq (names : List String) (n : Nat) (h : names.length ≤ n) :
    padColumns names n =
      names ++ (List.range (n - names.length)).map
        (fun k => "Column " ++ toString (names.length + k + 1)) := by
  unfold padColumns
  rcases lt_or_eq_of_le h with hlt | heq
  · simp [hlt]
  · simp [heq]

/-! ## Claim theorems -/

/-- C1: the claim that the top-level fragments committed to the output appear
in template order regardless of completion order fails on the code: `render`
submits the tags in order, but each `_process_tag` appends to the shared
document whenever its thread completes, so with two `title` nodes and the
completion order `[1, 0]` (a permutation of the two indices, reachable with
`max_workers ≥ 2`) the document shows the second node's fragment first. -/
theorem c1_render_commits_in_completion_order :
    renderSchedule defaultSession
        [.elem "title" [] (.ofList [.text "alpha"]),
         .elem "title" [] (.ofList [.text "beta"])] [1, 0]
      = [.para (some .center) [⟨"BETA", true, false, false⟩],
         .para (some .center) [⟨"ALPHA", true, false, false⟩]]
    ∧ renderSchedule defaultSession
        [.elem "title" [] (.ofList [.text "alpha"]),
         .elem "title" [] (.ofList [.text "beta"])] [1, 0]
      ≠ [.para (some .center) [⟨"ALPHA", true, false, false⟩],
         .para (some .center) [⟨"BETA", true, false, false⟩]]
    ∧ List.Perm [1, 0] (List.range 2) := by
  refine ⟨by decide, by decide, by decide⟩

/-- C2: the claim that chunk fragments are committed to the table in
chunk-index order regardless of completion order fails on the code:
`_process_dataframe_chunks` appends each chunk when its thread completes, so
a 3-row table with `chunk_size = 1` and completion order `[2, 0, 1]` shows its
data rows out of original order, both at the chunk dispatcher and through the
whole `_handle_dataframe` path.  (The fixed-size contiguous partition by
original row index itself is as claimed.) -/
theorem c2_chunks_commit_in_completion_order :
    chunksOf 1 [["r0"], ["r1"], ["r2"]] = [[["r0"]], [["r1"]], [["r2"]]]
    ∧ processDataframeChunks [["r0"], ["r1"], ["r2"]] 1 [2, 0, 1] = [["r2"], ["r0"], ["r1"]]
    ∧ processDataframeChunks [["r0"], ["r1"], ["r2"]] 1 [2, 0, 1] ≠ [["r0"], ["r1"], ["r2"]]
    ∧ List.Perm [2, 0, 1] (List.range 3)
    ∧ handleDataframe
        { defaultSession with
            chunkSize := 1, chunkOrder := [2, 0, 1],
            fs := fun _ => some (.ok ⟨["c"], [["r0"], ["r1"], ["r2"]]⟩) }
        (.elem "dataframe" [("src", "data.csv")] .nil)
      = ([.table ⟨some "Table Grid", ["c"], [["r2"], ["r0"], ["r1"]]⟩], none) := by
  refine ⟨by decide, by decide, by decide, by decide, by decide⟩

/-- C3: the claim that an `hk` tag renders a heading at level `k` fails on
the code for every `k ≥ 2`: `_handle_heading` parses the level from
`tag.name[1:-1]`, which is the empty slice for the two-character names
`h1..h9`, so `isdigit()` is false and the level falls back to 1.  An `<h2>`
node therefore renders as a level-1 heading (left alignment and stripped text
are as claimed). -/
theorem c3_heading_level_always_one :
    processTag defaultSession (.elem "h2" [] (.ofList [.text " Background "]))
      = [.heading 1 "Background"]
    ∧ processTag defaultSession (.elem "h2" [] (.ofList [.text " Background "]))
      ≠ [.heading 2 "Background"]
    ∧ headingLevel "h2" = 1 ∧ headingLevel "h3" = 1 ∧ headingLevel "h6" = 1
    ∧ headingLevel "h10" = 1 := by
  refine ⟨by decide, by decide, by decide, by decide, by decide, by decide⟩

/-- C4 counterexample: the claim says a line whose `<`/`>` counts differ opens
a block to which *subsequent lines* are appended without modification until
the accumulated counts balance or input ends, the block then being emitted as
one unit.  On the input `"<div>>\nHELLO WORLD"` the accumulated block never
balances, so the claim predicts the single flushed unit
`"<div>>HELLO WORLD"`; the code instead closes the block at the prose line
and wraps `HELLO WORLD` in its own paragraph. -/
theorem c4_block_not_extended_by_prose :
    formatTemplateToHtml "<div>>\nHELLO WORLD" = "<div>>\n<p>HELLO WORLD</p>"
    ∧ formatTemplateToHtml "<div>>\nHELLO WORLD" ≠ "<div>>HELLO WORLD" := by
  refine ⟨by decide, by decide⟩

/-- C4 (amended): a non-comment line containing both `<` and `>` in unequal
counts opens a multi-line markup block; *subsequent unbalanced markup lines*
(and only such lines) are appended to it, each stripped of surrounding
whitespace; the accumulated block's own bracket balance is never re-checked,
and if input ends while the block is open it is flushed as a single
concatenated unit in its position. -/
theorem c4_unbalanced_block_flushed_as_unit (l : String) (ls : List String)
    (h : unbalancedMarkupLine l = true)
    (hs : ∀ x ∈ ls, unbalancedMarkupLine x = true) :
    formatLines (l :: ls) = [String.join ((l :: ls).map pyStrip)] := by
  unfold formatLines
  rw [List.foldl_cons, normStep_start_unbalanced [] l h]
  rw [norm_block_absorbs ls [] [pyStrip l] (by simp) hs]
  simp

/-- C4 witness: two unbalanced markup lines flush as the single concatenated
unit. -/
theorem c4_unbalanced_block_flushed_as_unit_witness :
    formatLines ["<div>>", "<<p>"] = ["<div>><<p>"] := by
  exact (c4_unbalanced_block_flushed_as_unit "<div>>" ["<<p>"] (by decide)
    (by decide)).trans (by decide)

/-- C5 counterexample: the claim says the rendered document contains the
literal text `<missing/>`.  The bound template text does keep those
characters, but they then pass through the markup parser: the self-closing
placeholder parses to an empty `missing` element, whose fallback paragraph
(`_add_paragraph` → `_handle_inline_formatting`) has no text leaves and so
emits a paragraph with zero runs — the literal characters appear nowhere in
the committed fragments. -/
theorem c5_self_closing_placeholder_renders_empty :
    processTag defaultSession (parseSelfClosing "missing") = [.para none []]
    ∧ fragsContainText (processTag defaultSession (parseSelfClosing "missing")) "<missing/>"
      = false := by
  refine ⟨by decide, by decide⟩

/-- C5 (amended): a placeholder whose name is absent from the Context
survives variable binding verbatim in the bound template text (binding
touches only bound names), and `validate_template` reports the name as a
warning — never as an error, with `is_valid` still true and nothing raised;
the rendered document however shows an empty paragraph for the placeholder,
not the literal text. -/
theorem c5_missing_placeholder_is_warning_only (content : String)
    (ctx : List (String × CtxVal)) (tc : Nat) (name : String)
    (hmem : name ∈ scanPlaceholders content)
    (hmiss : name ∉ ctx.map Prod.fst)
    (hnoph : ∀ kv ∈ ctx, containsSub content ("<" ++ kv.1 ++ "/>") = false) :
    replaceVariables content ctx = content
    ∧ ("Variable '" ++ name ++ "' not found in context")
        ∈ (validateTemplate content (ctx.map Prod.fst) tc).warnings
    ∧ (validateTemplate content (ctx.map Prod.fst) tc).errors = []
    ∧ (validateTemplate content (ctx.map Prod.fst) tc).isValid = true := by
  refine ⟨replaceVariables_of_no_placeholder ctx content hnoph, ?_, rfl, rfl⟩
  have hdist : name ∈ (scanPlaceholders content).dedup := List.mem_dedup.mpr hmem
  have hcont : (ctx.map Prod.fst).contains name = false := by
    cases h : (ctx.map Prod.fst).contains name
    · rfl
    · exact absurd (List.mem_of_elem_eq_true h) hmiss
  have hmem2 : name ∈ ((scanPlaceholders content).dedup.filter
      (fun v => !(ctx.map Prod.fst).contains v)) :=
    List.mem_filter.mpr ⟨hdist, by rw [hcont]; rfl⟩
  have hw : ("Variable '" ++ name ++ "' not found in context")
      ∈ ((scanPlaceholders content).dedup.filter
          (fun v => !(ctx.map Prod.fst).contains v)).map
        (fun v => "Variable '" ++ v ++ "' not found in context") :=
    List.mem_map_of_mem _ hmem2
  have hne : ((scanPlaceholders content).dedup.filter
      (fun v => !(ctx.map Prod.fst).contains v)).isEmpty = false := by
    simpa [List.isEmpty_iff] using List.ne_nil_of_mem hmem2
  simp only [validateTemplate, hne, Bool.not_false, if_true]
  exact List.mem_append_left _ hw

/-- C5 witness: a concrete template with a bound `name` and an unbound
`missing` placeholder. -/
theorem c5_missing_placeholder_is_warning_only_witness :
    replaceVariables "Report: <missing/>" [("name", CtxVal.str "Bob")] = "Report: <missing/>"
    ∧ ("Variable '" ++ "missing" ++ "' not found in context")
        ∈ (validateTemplate "Report: <missing/>"
            ([("name", CtxVal.str "Bob")].map Prod.fst) 2).warnings
    ∧ (validateTemplate "Report: <missing/>"
        ([("name", CtxVal.str "Bob")].map Prod.fst) 2).errors = []
    ∧ (validateTemplate "Report: <missing/>"
        ([("name", CtxVal.str "Bob")].map Prod.fst) 2).isValid = true := by
  exact c5_missing_placeholder_is_warning_only "Report: <missing/>"
    [("name", CtxVal.str "Bob")] 2 "missing" (by decide) (by decide) (by decide)

/-- C6 counterexample: the claim says a failing node's contribution becomes an
inline error marker fragment.  `_process_tag` only prints the caught
exception: a `blank_table` whose `rows` attribute makes `int()` raise
contributes no fragment at all — in particular no error marker. -/
theorem c6_exception_commits_no_marker :
    processTag defaultSession (.elem "blank_table" [("rows", "oops")] .nil) = []
    ∧ (dispatchTag defaultSession (.elem "blank_table" [("rows", "oops")] .nil)).2
      = some "ValueError: invalid literal for int()" := by
  refine ⟨by decide, by decide⟩

/-- C6 (amended): a handler exception is caught per node (nothing propagates
out of `_process_tag`), the failing node contributes only the fragments it
appended before raising — no error marker is added — and every sibling's
fragments still appear contiguously in the committed output, whatever the
completion order. -/
theorem c6_siblings_still_rendered (s : Session) (tags : List Node) (order : List Nat)
    (j : Nat) (t : Node) (hj : j ∈ order) (ht : tags.get? j = some t) :
    ∃ p q, renderSchedule s tags order = p ++ processTag s t ++ q := by
  obtain ⟨p, q, hpq⟩ := exists_flatten_split
    (fun i => match tags.get? i with
      | some t => processTag s t
      | none => []) order j hj
  refine ⟨p, q, ?_⟩
  rw [ht] at hpq
  exact hpq

/-- C6 witness: the failing `blank_table` sibling does not stop the `title`
node from being rendered. -/
theorem c6_siblings_still_rendered_witness :
    ∃ p q, renderSchedule defaultSession
        [.elem "title" [] (.ofList [.text "ok"]),
         .elem "blank_table" [("rows", "oops")] .nil] [1, 0]
      = p ++ processTag defaultSession (.elem "title" [] (.ofList [.text "ok"])) ++ q := by
  exact c6_siblings_still_rendered defaultSession
    [.elem "title" [] (.ofList [.text "ok"]),
     .elem "blank_table" [("rows", "oops")] .nil] [1, 0] 0
    (.elem "title" [] (.ofList [.text "ok"])) (by decide) rfl

/-- C7: a `dataframe` tag whose `src` names a nonexistent path appends exactly
one error-styled paragraph (`"... No data available."`) and zero table
elements, and the handler returns normally (no exception, render
continues). -/
theorem c7_missing_csv_one_error_paragraph (s : Session)
    (attrs : List (String × String)) (cs : NodeList) (p : String)
    (hsrc : lookupAttr attrs "src" = some p) (hfs : s.fs p = none) :
    handleDataframe s (.elem "dataframe" attrs cs)
      = ([.errorPara (Node.getText (.elem "dataframe" attrs cs) ++ " No data available.")],
         none)
    ∧ (handleDataframe s (.elem "dataframe" attrs cs)).1.filter isTableFrag = [] := by
  have h1 : handleDataframe s (.elem "dataframe" attrs cs)
      = ([.errorPara (Node.getText (.elem "dataframe" attrs cs) ++ " No data available.")],
         none) := by
    simp only [handleDataframe]
    rw [hsrc]
    simp [hfs, Df.isEmpty]
  refine ⟨h1, ?_⟩
  rw [h1]
  simp [isTableFrag]

/-- C7 witness: the default session has no files on disk. -/
theorem c7_missing_csv_one_error_paragraph_witness :
    handleDataframe defaultSession (.elem "dataframe" [("src", "missing.csv")] .nil)
      = ([.errorPara (Node.getText (.elem "dataframe" [("src", "missing.csv")] .nil)
          ++ " No data available.")], none)
    ∧ (handleDataframe defaultSession
        (.elem "dataframe" [("src", "missing.csv")] .nil)).1.filter isTableFrag = [] := by
  exact c7_missing_csv_one_error_paragraph defaultSession [("src", "missing.csv")] .nil
    "missing.csv" rfl rfl

/-- C8 helper: with no explicit override and no requested height, the
geometry resolver returns `(w, h)` with `w = aspect · h`, `h > 0`, and both
within the 90%-page-width / 80%-page-height box. -/
theorem getImageSize_default_spec (pageW pageH imgW imgH : ℚ)
    (hpw : 0 < pageW) (hph : 0 < pageH) (hw : 0 < imgW) (hh : 0 < imgH) :
    ∃ w h, getImageSize pageW pageH imgW imgH 0 = (w, h)
      ∧ w = (imgW / imgH) * h ∧ 0 < h
      ∧ w ≤ pageW * (9/10) ∧ h ≤ pageH * (8/10) := by
  have ha : 0 < imgW / imgH := div_pos hw hh
  have ha' : imgW / imgH ≠ 0 := ne_of_gt ha
  unfold getImageSize
  simp only [beq_self_eq_true, if_true]
  split_ifs with h1 h2 h2
  · -- width clamp taken, then height clamp taken
    refine ⟨_, _, rfl, by ring, by positivity, ?_, le_refl _⟩
    have := (lt_div_iff₀ ha).mp h2
    linarith
  · -- width clamp taken only
    refine ⟨_, _, rfl, by field_simp; ring, by positivity, le_refl _, not_lt.mp h2⟩
  · -- height clamp taken only
    refine ⟨_, _, rfl, by ring, by positivity, ?_, le_refl _⟩
    have h1' : pageW * (6/10) ≤ pageW * (9/10) := not_lt.mp h1
    have := (lt_div_iff₀ ha).mp h2
    linarith
  · -- no clamp
    refine ⟨_, _, rfl, by field_simp; ring, by positivity, not_lt.mp h1, not_lt.mp h2⟩

/-- C8 counterexample: with the default landscape A4 page and
`image_max_size = (5.3, 3.5)`, an image of intrinsic ratio 2 resolves through
`_get_image_size` to `(7.014, 3.507)` (ratio preserved), but `_handle_image`
then clamps each dimension independently to `(5.3, 3.5)`, whose ratio
`53/35 ≈ 1.514` is not 2 — far beyond floating tolerance. -/
theorem c8_independent_clamp_breaks_aspect_ratio :
    getImageSize (1169/100) (827/100) 200 100 0 = (3507/500, 3507/1000)
    ∧ resolveImageSize (53/10) (7/2) none none (3507/500) (3507/1000) = (53/10, 7/2)
    ∧ ((53 : ℚ)/10) / ((7 : ℚ)/2) ≠ (200 : ℚ)/100 := by
  refine ⟨?_, ?_, by norm_num⟩
  · unfold getImageSize
    norm_num
  · unfold resolveImageSize
    have hc : (decide ((3507 : ℚ)/500 > 53/10) || decide ((3507 : ℚ)/1000 > 7/2)) = true := by
      have : (53 : ℚ)/10 < 3507/500 := by norm_num
      simp [this]
    simp only [Option.isSome_none, Bool.or_self, hc, if_true]
    have h1 : min ((3507 : ℚ)/500) (53/10) = 53/10 := min_eq_right (by norm_num)
    have h2 : min ((3507 : ℚ)/1000) (7/2) = 7/2 := min_eq_right (by norm_num)
    simp [h1, h2]

/-- C8 (amended): with no explicit width/height attribute, the *geometry
resolver* stage preserves the intrinsic aspect ratio exactly and keeps both
dimensions within the 90%/80% page box; and the final resolved size equals
that ratio-preserving size only when it already fits `image_max_size` —
otherwise `_handle_image` clamps each dimension independently, which may
change the ratio. -/
theorem c8_ratio_preserved_at_geometry_stage (pageW pageH imgW imgH imageMaxW imageMaxH : ℚ)
    (hpw : 0 < pageW) (hph : 0 < pageH) (hw : 0 < imgW) (hh : 0 < imgH) :
    (getImageSize pageW pageH imgW imgH 0).1 / (getImageSize pageW pageH imgW imgH 0).2
      = imgW / imgH
    ∧ (getImageSize pageW pageH imgW imgH 0).1 ≤ pageW * (9/10)
    ∧ (getImageSize pageW pageH imgW imgH 0).2 ≤ pageH * (8/10)
    ∧ ((getImageSize pageW pageH imgW imgH 0).1 ≤ imageMaxW →
        (getImageSize pageW pageH imgW imgH 0).2 ≤ imageMaxH →
        resolveImageSize imageMaxW imageMaxH none none
            (getImageSize pageW pageH imgW imgH 0).1
            (getImageSize pageW pageH imgW imgH 0).2
          = getImageSize pageW pageH imgW imgH 0) := by
  obtain ⟨w, h, hEq, hwh, hhpos, hbw, hbh⟩ :=
    getImageSize_default_spec pageW pageH imgW imgH hpw hph hw hh
  rw [hEq]
  refine ⟨?_, hbw, hbh, ?_⟩
  · rw [hwh, mul_div_assoc, div_self (ne_of_gt hhpos), mul_one]
  · intro hle1 hle2
    have hle1' : w ≤ imageMaxW := hle1
    have hle2' : h ≤ imageMaxH := hle2
    unfold resolveImageSize
    have hc : (decide (w > imageMaxW) || decide (h > imageMaxH)) = false := by
      simp only [Bool.or_eq_false_iff, decide_eq_false_iff_not, not_lt]
      exact ⟨hle1', hle2'⟩
    simp [hc]

/-- C8 witness: a 2:1 image that fits the max box keeps its ratio end to
end. -/
theorem c8_ratio_preserved_at_geometry_stage_witness :
    (getImageSize 8 8 200 100 0).1 / (getImageSize 8 8 200 100 0).2 = (200 : ℚ) / 100
    ∧ (getImageSize 8 8 200 100 0).1 ≤ 8 * (9/10)
    ∧ (getImageSize 8 8 200 100 0).2 ≤ 8 * (8/10)
    ∧ ((getImageSize 8 8 200 100 0).1 ≤ 6 →
        (getImageSize 8 8 200 100 0).2 ≤ 3 →
        resolveImageSize 6 3 none none
          (getImageSize 8 8 200 100 0).1 (getImageSize 8 8 200 100 0).2
          = getImageSize 8 8 200 100 0) := by
  exact c8_ratio_preserved_at_geometry_stage 8 8 200 100 6 3
    (by norm_num) (by norm_num) (by norm_num) (by norm_num)

/-- C9 counterexample: a non-numeric `rows` attribute is *not* treated as 1:
`int("abc")` raises before any table is created, so the handler produces no
table (unlike the `rows="1"` case the claim says it should match). -/
theorem c9_nonnumeric_rows_raises :
    handleBlankTable (some "Table Grid") (.elem "blank_table" [("rows", "abc")] .nil)
      = ([], some "ValueError: invalid literal for int()")
    ∧ handleBlankTable (some "Table Grid") (.elem "blank_table" [("rows", "abc")] .nil)
      ≠ handleBlankTable (some "Table Grid") (.elem "blank_table" [("rows", "1")] .nil) := by
  refine ⟨by decide, by decide⟩

/-- C9 (amended): with numeric (or absent, defaulting to 1) positive
`rows`/`columns` and at most `columns` declared names, the declared
comma-separated names become the (bold) header names and the shortfall up to
the column count is auto-named `Column N`; a *non-numeric* `rows` or
`columns` value instead raises `ValueError` inside the handler, producing no
table. -/
theorem c9_declared_headers_and_autonames (sty : Option String)
    (attrs : List (String × String)) (cs : NodeList) (r c : Int) (names : List String)
    (hr : (match lookupAttr attrs "rows" with
           | none => some (1 : Int)
           | some v => pyParseInt v) = some r)
    (hc : (match lookupAttr attrs "columns" with
           | none => some (1 : Int)
           | some v => pyParseInt v) = some c)
    (hr1 : 1 ≤ r) (hc1 : 1 ≤ c)
    (hnames : names = pySplitChar ((lookupAttr attrs "columns_name").getD "") ',')
    (hlen : names.length ≤ c.toNat) :
    handleBlankTable sty (.elem "blank_table" attrs cs)
      = ([.table ⟨sty,
            (names ++ (List.range (c.toNat - names.length)).map
              (fun k => "Column " ++ toString (names.length + k + 1))).map pyStrip,
            List.replicate ((r.toNat - 1) + (r.toNat - 1)) (List.replicate c.toNat "")⟩],
         none) := by
  simp only [handleBlankTable]
  rw [hr, hc, ← hnames]
  have hcond1 : ¬(r < 1) := by omega
  have hcond2 : ¬(c < 1) := by omega
  have hlen' : ¬(names.length > c.toNat) := by omega
  simp [hcond1, hcond2, hlen', padColumns_eq names c.toNat hlen]

/-- C9 witness: two declared names over four columns. -/
theorem c9_declared_headers_and_autonames_witness :
    handleBlankTable (some "Grid")
        (.elem "blank_table" [("rows", "3"), ("columns", "4"), ("columns_name", "A,B")] .nil)
      = ([.table ⟨some "Grid", ["A", "B", "Column 3", "Column 4"],
            List.replicate 4 (List.replicate 4 "")⟩], none) := by
  exact (c9_declared_headers_and_autonames (some "Grid")
    [("rows", "3"), ("columns", "4"), ("columns_name", "A,B")] .nil 3 4 ["A", "B"]
    (by decide) (by decide) (by decide) (by decide) (by decide) (by decide)).trans (by decide)

/-- C10 counterexample: the claim says comment-line stripping is never
applied to `template_content`.  `_clean_template` is indeed skipped on that
path, but `_format_template_to_html` runs on both paths and drops every line
whose stripped form starts with `#`: the comment line vanishes (were comments
preserved, the two prose lines would merge into one paragraph). -/
theorem c10_content_path_still_strips_comments :
    initContent none (some "# internal note\nhello") [] = .ok "<p>hello</p>"
    ∧ initContent none (some "# internal note\nhello") []
      ≠ .ok "<p># internal notehello</p>" := by
  have h1 : initContent none (some "# internal note\nhello") [] = .ok "<p>hello</p>" := by
    rfl
  refine ⟨h1, ?_⟩
  intro hcontra
  rw [h1] at hcontra
  exact absurd (Except.ok.inj hcontra) (by decide)

/-- C10 (amended): on the `template_content` construction path variable
binding is never applied — the resulting template is `_format_template_to_html`
of the given content, independent of the Context, so `<name/>` placeholders
reach the normalizer and parser verbatim even when bound — but comment lines
are still dropped by the normalizer, which runs on both paths. -/
theorem c10_no_binding_on_content_path (content : String)
    (ctx ctx2 : List (String × CtxVal)) (h : content ≠ "") :
    initContent none (some content) ctx = .ok (formatTemplateToHtml content)
    ∧ initContent none (some content) ctx = initContent none (some content) ctx2 := by
  constructor <;> simp [initContent, h]

/-- C10 witness: a placeholder bound in the Context still reaches the parser
verbatim on the content path. -/
theorem c10_no_binding_on_content_path_witness :
    initContent none (some "<name/>") [("name", CtxVal.str "Bob")] = .ok "<name/>"
    ∧ initContent none (some "<name/>") [("name", CtxVal.str "Bob")]
      = initContent none (some "<name/>") [] := by
  have h := c10_no_binding_on_content_path "<name/>" [("name", CtxVal.str "Bob")] []
    (by decide)
  exact ⟨h.1.trans (by rfl), h.2⟩

end E2W
